import Mathlib

/-!
Shallow embedding of the QA_TESTOR agent execution loop.

The repository contains several variants of the same agent loop:
* `src/src/server/api/routers/qa_analysis.ts`  — "router" variant (`runQualityAnalysis`, maxSteps 10)
* `src/src/server/services/qualityAnalysis.ts` — "service" variant (`runQualityAnalysis`, maxSteps 15)
* `src/src/server/api/root.ts`                 — "root" variant (`runQualityAnalysis`, no guards)
* `src/unnamed/part_000`                       — `executeWebTask` (live-page variant, browser never closed)
* `src/unnamed/part_001`                       — earlier `runQualityAnalysis` (Set-based dedup, no cap)

The router and the service variant share the loop body verbatim up to a small
list of differences, which are collected in `QA.Cfg`; the loop is modelled once,
parameterised by a `Cfg`.  External collaborators (the browser session and the
language model) are modelled as an environment: one `QA.StepEnv` per loop
iteration supplies every value the collaborators return during that iteration,
and `QA.RunEnv` supplies the run-level values (launch, initial navigation,
final summaries).  Ghost fields (`executedKeys`, `browserOps`) instrument the
state with the facts the claims talk about (which proposals reached the switch,
how many browser primitives ran); they influence nothing.
-/

namespace QA

/-- Params bag of an action proposal: the fields the switch statements read
(`nextStep.params?.selector`, `.text`, `.url`, `.direction`, `.ms`, `.value`). -/
structure Params where
  selector : Option String := none
  text : Option String := none
  url : Option String := none
  direction : Option String := none
  ms : Option Nat := none
  value : Option String := none
deriving DecidableEq

/-- Parsed action proposal (`thought` / `action` / `params`), as produced by
`generateNextStep` in qa_analysis.ts / qualityAnalysis.ts. -/
structure NextStep where
  thought : String := ""
  action : String := ""
  params : Params := {}
deriving DecidableEq

/-- JavaScript truthiness of an optional string: `undefined` and the empty
string are falsy (`nextStep.params?.url && ...`). -/
def truthy : Option String → Option String
  | some s => if s = "" then none else some s
  | none => none

/-- Equivalent of JavaScript `array.join(', ')`. -/
def joinComma : List String → String
  | [] => ""
  | [a] => a
  | a :: b :: rest => a ++ ", " ++ joinComma (b :: rest)

/-- Character-list prefix test (used by the substring test below). -/
def prefixChars : List Char → List Char → Bool
  | [], _ => true
  | _ :: _, [] => false
  | p :: ps, c :: cs => p == c && prefixChars ps cs

/-- Character-list infix test. -/
def infixChars (p : List Char) : List Char → Bool
  | [] => prefixChars p []
  | c :: cs => prefixChars p (c :: cs) || infixChars p cs

/-- Equivalent of JavaScript `s.includes(pat)`. -/
def isSub (pat s : String) : Bool := infixChars pat.toList s.toList

/-- Action signature used by the repetition guard:
`actionKey = nextStep.action + "_" + (nextStep.params?.selector || '')`
(qa_analysis.ts line 162, qualityAnalysis.ts line 379). -/
def actionKey (s : NextStep) : String := s.action ++ "_" ++ s.params.selector.getD ""

/-- Abstract stand-in for the JavaScript builtin `JSON.stringify(nextStep)`
used only to build transcript lines; its exact text is external-library
behaviour and no claim depends on it. -/
def stringifyStep (s : NextStep) : String := s.action

/-- Variant configuration: the differences between the router loop
(qa_analysis.ts) and the service loop (qualityAnalysis.ts). -/
structure Cfg where
  /-- `const maxSteps = 10` (router, line 145) / `15` (service, line 362). -/
  maxSteps : Nat
  /-- service returns on every non-ok initial status (line 309); the router
  appends the critical line on non-ok but returns only when `statusCode >= 400`
  (lines 135-141). -/
  returnAllNonOk : Bool
  /-- service races the initial `goto` against a sleep and returns a timeout
  outcome (lines 293-307); in the router a navigation timeout is an exception
  that falls to the outer catch. -/
  hasTimeoutRace : Bool
  /-- service checks `pageErrorOccurred` once before the loop (line 356). -/
  hasPreLoopPageErrorCheck : Bool
  /-- service's switch has a SELECT case (lines 442-447); the router's does not,
  so SELECT falls into the default (unknown action) case. -/
  hasSelect : Bool
  /-- service launches the browser inside the try block (line 290); the router
  launches before the try (lines 103-104), so a launch/newPage failure
  propagates to the caller. -/
  setupInsideTry : Bool
  /-- the router calls `checkTaskCompletion` at the end of each iteration
  (lines 256-260); the service loop does not. -/
  hasCompletionCheck : Bool

/-- Configuration of src/src/server/api/routers/qa_analysis.ts. -/
def routerCfg : Cfg := ⟨10, false, false, false, false, false, true⟩

/-- Configuration of src/src/server/services/qualityAnalysis.ts. -/
def serviceCfg : Cfg := ⟨15, true, true, true, true, true, false⟩

/-- Mutable loop state of `runQualityAnalysis` (qa_analysis.ts lines 105-145,
qualityAnalysis.ts lines 318-362), plus ghost instrumentation:
`currentUrl` is the browser page's URL (`page.url()`), `executedKeys` records
the signature of each proposal that passed the repetition guard (so reached the
action switch), `browserOps` counts browser primitives performed. -/
structure LoopState where
  result : String
  currentState : String
  screenshots : List String
  completedActions : List String
  videoClicked : Bool
  criticalErrorOccurred : Bool
  errors : List String
  actionAttempts : String → Nat
  taskCompleted : Bool
  stepCount : Nat
  currentUrl : String
  executedKeys : List String
  browserOps : Nat

/-- Initial loop state: counters zero, maps empty, transcript `r0` (the router
enters the loop with the critical-status line already appended when the initial
status was non-ok but below 400). -/
def initState (url : String) (r0 : String) : LoopState :=
  ⟨r0, "URL: " ++ url, [], [], false, false, [], fun _ => 0, false, 0, url, [], 0⟩

/-- Environment of one loop iteration: everything the browser and the language
model return during that iteration.  Defaults describe an uneventful step. -/
structure StepEnv where
  /-- strings pushed by the `console` / `requestfailed` (and, in the service
  variant, `pageerror`) handlers during this iteration's awaits. -/
  newErrors : List String := []
  /-- the same handlers set `criticalErrorOccurred` during this iteration
  (ERR_CONNECTION_REFUSED / ERR_NAME_NOT_RESOLVED / critical React error). -/
  criticalRaised : Bool := false
  /-- `extractPageContent(page)` (a loop-level await) throws: the exception
  escapes the loop to the outer catch. -/
  pageContentThrows : Bool := false
  crashMsg : String := ""
  /-- result of `generateNextStep`; `none` models a falsy parsed value
  (`if (!nextStep) break`, qa_analysis.ts line 156). -/
  proposal : Option NextStep := none
  /-- the switch's action throws (`catch (stepError)`). -/
  execThrows : Bool := false
  stepFailMsg : String := ""
  /-- `findAlternativeSelector` result consulted on a CLICK/TYPE failure. -/
  altSelector : Option String := none
  /-- the retry with the alternative selector throws: this second exception is
  not caught by the per-step catch and escapes the loop. -/
  altThrows : Bool := false
  altMsg : String := ""
  /-- `page.url()` after a NAVIGATE `goto` (the landed URL). -/
  navUrl : String := ""
  /-- page URL after a CLICK, when the click navigated (`none` = unchanged). -/
  clickNavUrl : Option String := none
  screenshotData : String := ""
  linksJson : String := ""
  summary : String := ""
  /-- `checkIfVideoPlaying(page)` result. -/
  videoPlaying : Bool := false
  /-- one of the post-switch awaits (`page.url()`, `checkIfVideoPlaying`,
  `checkTaskCompletion`'s model call) throws and escapes the loop; modelled at
  a single point, after the step counter increment and the video check. -/
  postThrows : Bool := false
  postMsg : String := ""
  /-- `checkTaskCompletion` verdict (router only). -/
  completionCompleted : Bool := false
  completionReason : String := ""

/-- Outcome of the action switch together with its try/catch. -/
inductive ExecOut
  | done (st : LoopState)
  | crash (st : LoopState) (msg : String)

/-- State carried by an `ExecOut`. -/
def ExecOut.state : ExecOut → LoopState
  | .done st => st
  | .crash st _ => st

/-- NAVIGATE case (qa_analysis.ts lines 173-179): navigates only when a URL is
given and NAVIGATE was never completed in this run. -/
def navCase (st : LoopState) (step : NextStep) (e : StepEnv) : LoopState :=
  match truthy step.params.url with
  | some _ =>
    if st.completedActions.contains "NAVIGATE" then st
    else { st with currentUrl := e.navUrl,
                   currentState := "URL: " ++ e.navUrl,
                   completedActions := st.completedActions ++ ["NAVIGATE"],
                   browserOps := st.browserOps + 1 }
  | none => st

/-- CLICK case (qa_analysis.ts lines 180-188): clicks, records the action, and
sets the video flag for the two video selectors. -/
def clickCase (st : LoopState) (step : NextStep) (e : StepEnv) : LoopState :=
  match truthy step.params.selector with
  | some sel =>
    let st := { st with completedActions := st.completedActions ++ ["CLICK_" ++ sel],
                        currentUrl := (e.clickNavUrl).getD st.currentUrl,
                        browserOps := st.browserOps + 1 }
    if sel = "#video-title" ∨ sel = "a[title]" then { st with videoClicked := true } else st
  | none => st

/-- TYPE case (qa_analysis.ts lines 189-194). -/
def typeCase (st : LoopState) (step : NextStep) : LoopState :=
  match truthy step.params.selector, truthy step.params.text with
  | some sel, some _ =>
    { st with completedActions := st.completedActions ++ ["TYPE_" ++ sel],
              browserOps := st.browserOps + 1 }
  | _, _ => st

/-- HIGHLIGHT case (qa_analysis.ts lines 219-224). -/
def highlightCase (st : LoopState) (step : NextStep) : LoopState :=
  match truthy step.params.selector with
  | some sel =>
    { st with completedActions := st.completedActions ++ ["HIGHLIGHT_" ++ sel],
              browserOps := st.browserOps + 1 }
  | none => st

/-- SELECT case (qualityAnalysis.ts lines 442-447; service variant only). -/
def selectCase (st : LoopState) (step : NextStep) : LoopState :=
  match truthy step.params.selector, truthy step.params.value with
  | some sel, some _ =>
    { st with completedActions := st.completedActions ++ ["SELECT_" ++ sel],
              browserOps := st.browserOps + 1 }
  | _, _ => st

/-- The action switch (qa_analysis.ts lines 172-227, qualityAnalysis.ts lines
389-450), on the assumption that no action throws (the throwing case is handled
by `execStep`).  Each case updates exactly the variables the source updates;
`browserOps` additionally counts the browser primitives performed. -/
def doSwitch (cfg : Cfg) (st : LoopState) (step : NextStep) (e : StepEnv) : LoopState :=
  if step.action = "NAVIGATE" then navCase st step e
  else if step.action = "CLICK" then clickCase st step e
  else if step.action = "TYPE" then typeCase st step
  else if step.action = "WAIT" then
    { st with completedActions := st.completedActions ++ ["WAIT"] }
  else if step.action = "SCREENSHOT" then
    { st with screenshots := st.screenshots ++ [e.screenshotData],
              completedActions := st.completedActions ++ ["SCREENSHOT"],
              browserOps := st.browserOps + 1 }
  else if step.action = "EXTRACT_LINKS" then
    { st with result := st.result ++ "Links: " ++ e.linksJson ++ "\n",
              completedActions := st.completedActions ++ ["EXTRACT_LINKS"],
              browserOps := st.browserOps + 1 }
  else if step.action = "SUMMARIZE" then
    { st with result := st.result ++ "Summary: " ++ e.summary ++ "\n",
              completedActions := st.completedActions ++ ["SUMMARIZE"],
              taskCompleted := true,
              browserOps := st.browserOps + 1 }
  else if step.action = "SCROLL" then
    { st with completedActions := st.completedActions ++ ["SCROLL"],
              browserOps := st.browserOps + 1 }
  else if step.action = "HIGHLIGHT" then highlightCase st step
  else if step.action = "SELECT" ∧ cfg.hasSelect then selectCase st step
  else
    { st with result := st.result ++ "Unknown action: " ++ step.action ++ "\n" }

/-- Retry with the alternative selector (qa_analysis.ts lines 233-240): log the
attempt, retry (a throw here escapes the loop), log success, and set the video
flag when a CLICK retried through one of the two video selectors. -/
def altRetry (st : LoopState) (step : NextStep) (e : StepEnv) (alt : String) : ExecOut :=
  let st := { st with result := st.result ++ "Trying alternative selector: " ++ alt ++ "\n" }
  if e.altThrows then .crash st e.altMsg
  else
    let st := { st with
      result := st.result ++ "Step completed successfully with alternative selector\n",
      browserOps := st.browserOps + 1 }
    let st := if step.action = "CLICK" then
                { st with currentUrl := (e.clickNavUrl).getD st.currentUrl }
              else st
    if step.action = "CLICK" ∧ (alt = "#video-title" ∨ alt = "a[title]") then
      .done { st with videoClicked := true }
    else .done st

/-- The per-step catch (qa_analysis.ts lines 229-242): append the error line;
for CLICK and TYPE consult `findAlternativeSelector` and retry through the
first alternative present. -/
def catchPath (st : LoopState) (step : NextStep) (e : StepEnv) : ExecOut :=
  let st := { st with result := st.result ++ "Error executing step: " ++ e.stepFailMsg ++ "\n" }
  if step.action = "CLICK" ∨ step.action = "TYPE" then
    match e.altSelector with
    | some alt => altRetry st step e alt
    | none => .done st
  else .done st

/-- The try/catch around the switch (qa_analysis.ts lines 171-242): on success
appends the success line; on a step error runs the catch. -/
def execStep (cfg : Cfg) (st : LoopState) (step : NextStep) (e : StepEnv) : ExecOut :=
  if e.execThrows then catchPath st step e
  else
    let st := doSwitch cfg st step e
    .done { st with result := st.result ++ "Step completed successfully\n" }

/-- Outcome of one loop iteration. -/
inductive StepOut
  /-- the iteration ran to its end (`continue` or the bottom of the body). -/
  | next (st : LoopState)
  /-- an in-loop `return` (critical error) with the given error string. -/
  | halt (st : LoopState) (err : String)
  /-- a `break` (falsy proposal): control falls to the post-loop code. -/
  | broke (st : LoopState)
  /-- an exception escaped the loop body to the outer catch. -/
  | crash (st : LoopState) (msg : String)

/-- State carried by a `StepOut`. -/
def StepOut.state : StepOut → LoopState
  | .next st => st
  | .halt st _ => st
  | .broke st => st
  | .crash st _ => st

/-- Tail of a loop iteration whose switch did not crash (qa_analysis.ts lines
244-260): the state line (`await page.url()`, last action, completed actions),
the step-counter increment, the video-playing heuristic, the modelled
post-switch crash point, and (router only) the completion check. -/
def afterExec (cfg : Cfg) (st' : LoopState) (step : NextStep) (e : StepEnv) : StepOut :=
  let st' := { st' with
    currentState := "URL: " ++ st'.currentUrl ++ "\nLast action: " ++ step.action
      ++ "\nCompleted actions: " ++ joinComma st'.completedActions,
    stepCount := st'.stepCount + 1 }
  let st' := if st'.videoClicked then
               if e.videoPlaying then
                 { st' with taskCompleted := true,
                            result := st'.result ++ "Task completed: Video is playing.\n" }
               else st'
             else st'
  if e.postThrows then .crash st' e.postMsg
  else if cfg.hasCompletionCheck ∧ e.completionCompleted then
    .next { st' with taskCompleted := true,
                     result := st'.result ++ "Task completed: "
                       ++ e.completionReason ++ "\n" }
  else .next st'

/-- The switch in its try/catch followed by the iteration tail: a crash of
either propagates out of the loop. -/
def execDispatch (cfg : Cfg) (st : LoopState) (step : NextStep) (e : StepEnv) : StepOut :=
  match execStep cfg st step e with
  | .crash st' m => .crash st' m
  | .done st' => afterExec cfg st' step e

/-- The part of an iteration that runs once the repetition guard has admitted
the proposal (qa_analysis.ts lines 169-260): record the attempt
(`actionAttempts[actionKey] = (actionAttempts[actionKey] || 0) + 1`), run the
switch in its try/catch, then the iteration tail.  `executedKeys` is the ghost
log of admitted signatures. -/
def admitStep (cfg : Cfg) (st : LoopState) (step : NextStep) (e : StepEnv) : StepOut :=
  let key := actionKey step
  let st := { st with
    actionAttempts := fun k => if k = key then st.actionAttempts key + 1 else st.actionAttempts k,
    executedKeys := st.executedKeys ++ [key] }
  execDispatch cfg st step e

/-- One iteration of the while loop (qa_analysis.ts lines 147-261,
qualityAnalysis.ts lines 364-477), assuming the loop condition held: the
critical-error return, the handler events observed during this iteration's
awaits, the proposal, the repetition guard (skip when the signature already has
3 recorded attempts), and the admitted path. -/
def runStep (cfg : Cfg) (st : LoopState) (e : StepEnv) : StepOut :=
  if st.criticalErrorOccurred then
    .halt { st with result := st.result ++ "Critical error occurred. Stopping further actions.\n" }
      "Critical error"
  else
    let st := { st with errors := st.errors ++ e.newErrors,
                        criticalErrorOccurred := st.criticalErrorOccurred || e.criticalRaised }
    if e.pageContentThrows then .crash st e.crashMsg
    else
      match e.proposal with
      | none =>
        .broke { st with result := st.result ++ "Step " ++ toString (st.stepCount + 1)
                          ++ ": Failed to generate next step\n" }
      | some step =>
        let st := { st with result := st.result ++ "Step " ++ toString (st.stepCount + 1)
                            ++ ": " ++ stringifyStep step ++ "\n" }
        if 3 ≤ st.actionAttempts (actionKey step) then
          .next { st with result := st.result ++ "Skipping repeated action: "
                            ++ actionKey step ++ "\n",
                          stepCount := st.stepCount + 1 }
        else admitStep cfg st step e

/-- Exit of the loop phase. -/
inductive LoopExit
  /-- an in-loop `return { result, screenshots, error }`. -/
  | ret (st : LoopState) (err : String)
  /-- an exception escaped the loop: the outer catch handles it. -/
  | crashed (st : LoopState) (msg : String)
  /-- loop condition became false, the environment trace ended, or a `break`:
  control reaches the post-loop code. -/
  | fell (st : LoopState)

/-- State carried by a `LoopExit`. -/
def LoopExit.state : LoopExit → LoopState
  | .ret st _ => st
  | .crashed st _ => st
  | .fell st => st

/-- The while loop (`while (!taskCompleted && stepCount < maxSteps)`), driven by
a finite environment trace, one `StepEnv` per iteration; also counts the
iterations entered. -/
def runLoop (cfg : Cfg) (st : LoopState) : List StepEnv → LoopExit × Nat
  | [] => (.fell st, 0)
  | e :: es =>
    if st.taskCompleted ∨ cfg.maxSteps ≤ st.stepCount then (.fell st, 0)
    else
      match runStep cfg st e with
      | .next st' =>
        let r := runLoop cfg st' es
        (r.1, r.2 + 1)
      | .halt st' err => (.ret st' err, 1)
      | .broke st' => (.fell st', 1)
      | .crash st' m => (.crashed st' m, 1)

/-- Result of the initial `page.goto(url, ...)`:
it throws, it times out (service race), or it yields a response with a status. -/
inductive GotoResult
  | crash (msg : String)
  | timeout
  | ok (status : Nat)
deriving DecidableEq

/-- Run-level environment: launch behaviour, initial navigation, the per-step
trace, and the post-loop summarisation calls. -/
structure RunEnv where
  /-- `puppeteer.launch` throws. -/
  launchThrows : Bool := false
  launchMsg : String := ""
  /-- `browser.newPage()` throws. -/
  newPageThrows : Bool := false
  newPageMsg : String := ""
  gotoResult : GotoResult := .ok 200
  /-- `pageErrorOccurred` is true at the service variant's pre-loop check. -/
  preLoopPageError : Bool := false
  steps : List StepEnv := []
  /-- `summarizeErrors` reply. -/
  errorSummary : String := ""
  /-- `summarizeTest` reply. -/
  testSummary : String := ""
  /-- one of the post-loop model calls throws: the outer catch handles it. -/
  finalThrows : Bool := false
  finalMsg : String := ""

/-- Structured run outcome (`{ result, screenshots, error? }`); the generic
catch return carries no screenshots field, modelled as `[]`. -/
structure QAOutcome where
  result : String
  screenshots : List String
  error : Option String
deriving DecidableEq

/-- Observed result of a whole run: the value returned to the caller (or, for
`Except.error`, the exception that propagated past the boundary); `closes`
counts `browser.close()` invocations; `loopTranscript` is the ghost value of
`result` at the moment the try block was left (before the catch could discard
it); `stepsExecuted` counts the proposals that reached the action switch. -/
structure RunResult where
  outcome : Except String QAOutcome
  closes : Nat
  loopTranscript : String
  stepsExecuted : Nat

/-- Outcome produced by the outer catch (qa_analysis.ts lines 283-288,
qualityAnalysis.ts lines 498-505): a fixed placeholder result string plus the
exception message. -/
def catchOutcome (msg : String) : QAOutcome :=
  ⟨"An error occurred during the analysis", [], some msg⟩

/-- Post-loop code (qa_analysis.ts lines 263-282, qualityAnalysis.ts lines
479-497): max-steps note, filter of the benign permissions-policy noise,
error summary, test summary. -/
def finishRun (st : LoopState) (env : RunEnv) : RunResult :=
  let r1 := if st.taskCompleted then st.result
            else st.result ++ "Maximum steps reached without completing the task.\n"
  let criticalErrors := st.errors.filter
    (fun er => !(isSub "Permissions policy violation: unload is not allowed" er))
  if env.finalThrows then
    ⟨.ok (catchOutcome env.finalMsg), 1, st.result, st.executedKeys.length⟩
  else
    let r2 := if criticalErrors.isEmpty then
                r1 ++ "\nNo critical errors were detected during the test."
              else r1 ++ "\nImportant Errors:\n" ++ env.errorSummary
    let r3 := r2 ++ "\nTest Summary:\n" ++ env.testSummary
    ⟨.ok ⟨r3, st.screenshots, none⟩, 1, st.result, st.executedKeys.length⟩

/-- The loop phase followed by the function's exit paths. -/
def runFromLoop (cfg : Cfg) (st0 : LoopState) (env : RunEnv) : RunResult :=
  match runLoop cfg st0 env.steps with
  | (.ret st err, _) => ⟨.ok ⟨st.result, st.screenshots, some err⟩, 1, st.result, st.executedKeys.length⟩
  | (.crashed st msg, _) => ⟨.ok (catchOutcome msg), 1, st.result, st.executedKeys.length⟩
  | (.fell st, _) => finishRun st env

/-- The initial navigation and everything after it (qa_analysis.ts lines
133-288 / qualityAnalysis.ts lines 293-505): the goto outcome, the HTTP-status
gate — the router appends the critical line on any non-ok status but returns
only when `statusCode >= 400`; the service returns on every non-ok status —
then the loop phase. -/
def navPhase (cfg : Cfg) (url : String) (env : RunEnv) : RunResult :=
  match env.gotoResult with
  | .crash msg => ⟨.ok (catchOutcome msg), 1, "", 0⟩
  | .timeout =>
    if cfg.hasTimeoutRace then
      ⟨.ok ⟨"Navigation failed due to timeout", [], some "Page load timed out"⟩, 1, "", 0⟩
    else ⟨.ok (catchOutcome "Navigation timeout exceeded"), 1, "", 0⟩
  | .ok status =>
    let okResp := 200 ≤ status ∧ status ≤ 299
    if cfg.returnAllNonOk then
      if ¬ okResp then
        ⟨.ok ⟨"Critical error: HTTP status " ++ toString status, [],
              some ("HTTP status " ++ toString status)⟩, 1, "", 0⟩
      else if cfg.hasPreLoopPageErrorCheck ∧ env.preLoopPageError then
        ⟨.ok ⟨"", [], some "Page error occurred"⟩, 1, "", 0⟩
      else runFromLoop cfg (initState url "") env
    else
      let r0 := if okResp then ""
                else "Critical error: HTTP status " ++ toString status ++ "\n"
      if ¬ okResp ∧ 400 ≤ status then
        ⟨.ok ⟨r0, [], some ("HTTP status " ++ toString status)⟩, 1, r0, 0⟩
      else runFromLoop cfg (initState url r0) env

/-- Whole-run model of `runQualityAnalysis(url, task)` for the router variant
(qa_analysis.ts lines 102-289) and the service variant (qualityAnalysis.ts
lines 271-506), selected by `cfg`.  In the router, launch and newPage precede
the try block, so their exceptions propagate (`Except.error`) and the browser
is not closed; in the service they sit inside the try, so the catch produces
an outcome and the finally closes the browser iff it was launched. -/
def runQualityAnalysis (cfg : Cfg) (url : String) (env : RunEnv) : RunResult :=
  if env.launchThrows then
    if cfg.setupInsideTry then ⟨.ok (catchOutcome env.launchMsg), 0, "", 0⟩
    else ⟨.error env.launchMsg, 0, "", 0⟩
  else if env.newPageThrows then
    if cfg.setupInsideTry then ⟨.ok (catchOutcome env.newPageMsg), 1, "", 0⟩
    else ⟨.error env.newPageMsg, 0, "", 0⟩
  else navPhase cfg url env

/-- Default proposal returned by `generateNextStep` when everything else failed
(qa_analysis.ts lines 94-98, qualityAnalysis.ts lines 92-96, root.ts). -/
def defaultStep : NextStep :=
  ⟨"Unable to determine next step due to an error", "SUMMARIZE", {}⟩

/-- Model of the regex match `content.match(/\x7b[\s\S]*\x7d/)` used by the
router `generateNextStep` (qa_analysis.ts line 81): the greedy match runs from
the first opening brace to the last closing brace, provided the latter comes
after the former; otherwise there is no match. -/
def extractObject (s : String) : Option String :=
  let cs := s.toList
  match cs.findIdx? (fun c => c == Char.ofNat 123),
        cs.reverse.findIdx? (fun c => c == Char.ofNat 125) with
  | some i, some jr =>
    let j := cs.length - 1 - jr
    if i < j then some (String.mk ((cs.drop i).take (j - i + 1))) else none
  | _, _ => none

/-- Model of `generateNextStep` in qa_analysis.ts (lines 46-100).  `parse` is
the oracle for the JavaScript builtin `JSON.parse` (`some` = it succeeded with
a proposal-shaped object, `none` = it threw); `reply` is the model's text
(`none` = missing/empty content, which throws inside the try).  The outer catch
turns every failure into `defaultStep`. -/
def generateNextStep (parse : String → Option NextStep) (reply : Option String) : NextStep :=
  match reply with
  | none => defaultStep
  | some content =>
    match parse content with
    | some step => step
    | none =>
      match extractObject content with
      | some sub =>
        match parse sub with
        | some step => step
        | none => defaultStep
      | none => defaultStep

end QA

namespace P0

/-- Proposal shape of the part_000 variant (`thought` / `action` / `ariaLabel`
/ `text` / `param`, src/unnamed/part_000 lines 36-43). -/
structure NextStep where
  thought : String := ""
  action : String := ""
  ariaLabel : String := ""
  text : String := ""
  param : String := ""
deriving DecidableEq

/-- Model of `generateNextStep` in src/unnamed/part_000 (lines 204-236).
`apiFailure` models the fetch returning non-ok (`response.statusText`); `parse`
is the `JSON.parse` oracle.  Unlike the qa_analysis.ts generator, this one has
no default fallback: on a non-ok API response it throws, and when `JSON.parse`
fails it throws `"Failed to get a valid JSON response. Please try again."`
(lines 230-235). -/
def generateNextStep (parse : String → Option NextStep) (apiFailure : Option String)
    (reply : String) : Except String NextStep :=
  match apiFailure with
  | some statusText => .error ("OpenAI API request failed: " ++ statusText)
  | none =>
    match parse reply with
    | some step => .ok step
    | none => .error "Failed to get a valid JSON response. Please try again."

/-- Environment of one `executeWebTask` run: whether an exception was thrown
anywhere in the try body (initial instruction generation, initial goto, or the
step loop), the transcript the body accumulated up to that point, and the final
`currentUrl`.  The body is abstracted to these observables because no statement
inside it invokes `browser.close()`, which is the fact this model is used
for. -/
structure RunEnv where
  bodyFails : Option String := none
  transcript : String := ""
  liveUrl : String := ""

/-- Return value of `executeWebTask` plus the ghost count of `browser.close()`
invocations. -/
structure RunResult where
  result : String
  livePageUrl : String
  closes : Nat
deriving DecidableEq

/-- Model of `executeWebTask` in src/unnamed/part_000 (lines 100-202): the try
body accumulates the transcript, the catch appends the error line, and the
finally block performs no close — the `browser.close()` call is commented out
(line 198) so the page stays live; the function then returns
`{ result, livePageUrl }`.  No path invokes `browser.close()`, hence
`closes = 0` on every path. -/
def executeWebTask (env : RunEnv) : RunResult :=
  match env.bodyFails with
  | some msg => ⟨env.transcript ++ "Error: " ++ msg ++ "\n", env.liveUrl, 0⟩
  | none => ⟨env.transcript, env.liveUrl, 0⟩

end P0

namespace RootVariant

/-- Loop state of `runQualityAnalysis` in src/src/server/api/root.ts (lines
283-290): no attempt map, no critical-error flag, no video flag.  `currentUrl`
and `browserOps` are the same ghost instrumentation as in `QA.LoopState`. -/
structure RState where
  result : String
  currentState : String
  screenshots : List String
  completedActions : List String
  taskCompleted : Bool
  stepCount : Nat
  currentUrl : String
  browserOps : Nat

/-- Initial root-variant loop state. -/
def initState (url : String) : RState := ⟨"", "URL: " ++ url, [], [], false, 0, url, 0⟩

/-- Environment of one root-variant iteration.  The root generator returns the
default SUMMARIZE proposal on any failure (root.ts lines 118-125), so the
proposal is always present. -/
structure REnv where
  proposal : QA.NextStep := {}
  execThrows : Bool := false
  stepFailMsg : String := ""
  navUrl : String := ""
  clickNavUrl : Option String := none
  screenshotData : String := ""
  linksJson : String := ""
  summary : String := ""
  completionCompleted : Bool := false
  completionReason : String := ""

/-- The root variant's action switch (root.ts lines 299-352): its NAVIGATE case
has no idempotence guard — `if (nextStep.params?.url)` navigates
unconditionally, whether or not NAVIGATE was completed before (lines 301-308) —
and no case touches `completedActions` (the action name is pushed after the
switch, on success only). -/
def doSwitch (st : RState) (step : QA.NextStep) (e : REnv) : RState :=
  if step.action = "NAVIGATE" then
    match QA.truthy step.params.url with
    | some _ =>
      { st with currentUrl := e.navUrl,
                currentState := "URL: " ++ e.navUrl,
                browserOps := st.browserOps + 1 }
    | none => st
  else if step.action = "CLICK" then
    match QA.truthy step.params.selector with
    | some _ =>
      { st with currentUrl := (e.clickNavUrl).getD st.currentUrl,
                browserOps := st.browserOps + 1 }
    | none => st
  else if step.action = "TYPE" then
    match QA.truthy step.params.selector, QA.truthy step.params.text with
    | some _, some _ => { st with browserOps := st.browserOps + 1 }
    | _, _ => st
  else if step.action = "WAIT" then st
  else if step.action = "SCREENSHOT" then
    { st with screenshots := st.screenshots ++ [e.screenshotData],
              browserOps := st.browserOps + 1 }
  else if step.action = "EXTRACT_LINKS" then
    { st with result := st.result ++ "Links: " ++ e.linksJson ++ "\n",
              browserOps := st.browserOps + 1 }
  else if step.action = "SUMMARIZE" then
    { st with result := st.result ++ "Summary: " ++ e.summary ++ "\n",
              taskCompleted := true,
              browserOps := st.browserOps + 1 }
  else if step.action = "SCROLL" then
    { st with browserOps := st.browserOps + 1 }
  else if step.action = "HIGHLIGHT" then
    match QA.truthy step.params.selector with
    | some _ => { st with browserOps := st.browserOps + 1 }
    | none => st
  else
    { st with result := st.result ++ "Unknown action: " ++ step.action ++ "\n" }

/-- One iteration of the root variant's while loop (root.ts lines 293-370):
transcript line, the switch in a try (on success: success line and
`completedActions.push(nextStep.action)`; on a step error: error line only,
there is no alternative-selector retry here), then the state line, the counter
increment, and the completion check (gated by `!taskCompleted`). -/
def runStep (st : RState) (e : REnv) : RState :=
  let step := e.proposal
  let st := { st with result := st.result ++ "Step " ++ toString (st.stepCount + 1)
                      ++ ": " ++ QA.stringifyStep step ++ "\n" }
  let st :=
    if e.execThrows then
      { st with result := st.result ++ "Error executing step: " ++ e.stepFailMsg ++ "\n" }
    else
      let st := doSwitch st step e
      { st with result := st.result ++ "Step completed successfully\n",
                completedActions := st.completedActions ++ [step.action] }
  let st := { st with
    currentState := "URL: " ++ st.currentUrl ++ "\nLast action: " ++ step.action,
    stepCount := st.stepCount + 1 }
  if !st.taskCompleted && e.completionCompleted then
    { st with taskCompleted := true,
              result := st.result ++ "Task completed: " ++ e.completionReason ++ "\n" }
  else st

/-- The root variant's while loop (`maxSteps = 15`, root.ts line 289), driven by
a finite trace of iteration environments. -/
def runLoop (st : RState) : List REnv → RState
  | [] => st
  | e :: es =>
    if st.taskCompleted ∨ 15 ≤ st.stepCount then st
    else runLoop (runStep st e) es

end RootVariant

namespace P1

/-- Loop state of the part_001 variant's `runQualityAnalysis` (src/unnamed/
part_001 lines 48-58): `completedActions` is a JavaScript `Set`, modelled as a
duplicate-free list; no attempt map exists in this variant. -/
structure PState where
  result : String
  currentState : String
  screenshots : List String
  completedActions : List String
  videoClicked : Bool
  criticalErrorOccurred : Bool
  errors : List String
  taskCompleted : Bool
  stepCount : Nat
  currentUrl : String
  browserOps : Nat

/-- Initial part_001 loop state. -/
def initState (url : String) : PState :=
  ⟨"", "URL: " ++ url, [], [], false, false, [], false, 0, url, 0⟩

/-- JavaScript `Set.add`: append only when absent. -/
def addAction (l : List String) (a : String) : List String :=
  if l.contains a then l else l ++ [a]

/-- Environment of one part_001 iteration (proposal `none` models the generator
returning `null` on a parse failure, part_001 lines 40-45). -/
structure PEnv where
  newErrors : List String := []
  criticalRaised : Bool := false
  proposal : Option QA.NextStep := none
  execThrows : Bool := false
  stepFailMsg : String := ""
  altSelector : Option String := none
  altThrows : Bool := false
  altMsg : String := ""
  navUrl : String := ""
  clickNavUrl : Option String := none
  screenshotData : String := ""
  linksJson : String := ""
  summary : String := ""
  videoPlaying : Bool := false
  completionCompleted : Bool := false
  completionReason : String := ""

/-- Outcome of one part_001 iteration: in this variant a critical error and a
falsy proposal both `break` (lines 86-94), and only an alternative-selector
retry failure can escape the loop. -/
inductive POut
  | next (st : PState)
  | broke (st : PState)
  | crash (st : PState) (msg : String)

/-- State carried by a `POut`. -/
def POut.state : POut → PState
  | .next st => st
  | .broke st => st
  | .crash st _ => st

/-- The part_001 action switch (lines 112-167).  Its SUMMARIZE case (lines
150-154) appends the summary and records the action but does not set
`taskCompleted` — completion in this variant comes only from the video
heuristic and the model judgment after the switch. -/
def doSwitch (st : PState) (step : QA.NextStep) (e : PEnv) : PState :=
  if step.action = "NAVIGATE" then
    match QA.truthy step.params.url with
    | some _ =>
      if st.completedActions.contains "NAVIGATE" then st
      else { st with currentUrl := e.navUrl,
                     currentState := "URL: " ++ e.navUrl,
                     completedActions := addAction st.completedActions "NAVIGATE",
                     browserOps := st.browserOps + 1 }
    | none => st
  else if step.action = "CLICK" then
    match QA.truthy step.params.selector with
    | some sel =>
      let st := { st with completedActions := addAction st.completedActions "CLICK",
                          currentUrl := (e.clickNavUrl).getD st.currentUrl,
                          browserOps := st.browserOps + 1 }
      if sel = "#video-title" ∨ sel = "a[title]" then { st with videoClicked := true } else st
    | none => st
  else if step.action = "TYPE" then
    match QA.truthy step.params.selector, QA.truthy step.params.text with
    | some _, some _ =>
      if st.completedActions.contains "SEARCH" then st
      else { st with completedActions := addAction (addAction st.completedActions "TYPE") "SEARCH",
                     browserOps := st.browserOps + 1 }
    | _, _ => st
  else if step.action = "WAIT" then st
  else if step.action = "SCREENSHOT" then
    { st with screenshots := st.screenshots ++ [e.screenshotData],
              completedActions := addAction st.completedActions "SCREENSHOT",
              browserOps := st.browserOps + 1 }
  else if step.action = "EXTRACT_LINKS" then
    { st with result := st.result ++ "Links: " ++ e.linksJson ++ "\n",
              completedActions := addAction st.completedActions "EXTRACT_LINKS",
              browserOps := st.browserOps + 1 }
  else if step.action = "SUMMARIZE" then
    { st with result := st.result ++ "Summary: " ++ e.summary ++ "\n",
              completedActions := addAction st.completedActions "SUMMARIZE",
              browserOps := st.browserOps + 1 }
  else if step.action = "SCROLL" then
    { st with completedActions := addAction st.completedActions "SCROLL",
              browserOps := st.browserOps + 1 }
  else if step.action = "HIGHLIGHT" then
    match QA.truthy step.params.selector with
    | some _ =>
      { st with completedActions := addAction st.completedActions "HIGHLIGHT",
                browserOps := st.browserOps + 1 }
    | none => st
  else
    { st with result := st.result ++ "Unknown action: " ++ step.action ++ "\n" }

/-- One iteration of the part_001 while loop (lines 85-201): critical-error
break, falsy-proposal break, the Set-membership skip rules (search already
performed / video already clicked), the switch in a try with the
alternative-selector retry, then the state line, counter increment, video
check and completion check. -/
def runStep (st : PState) (e : PEnv) : POut :=
  if st.criticalErrorOccurred then
    .broke { st with result := st.result ++ "Critical error occurred. Stopping further actions.\n" }
  else
    let st := { st with errors := st.errors ++ e.newErrors,
                        criticalErrorOccurred := st.criticalErrorOccurred || e.criticalRaised }
    match e.proposal with
    | none =>
      .broke { st with result := st.result ++ "Step " ++ toString (st.stepCount + 1)
                        ++ ": Failed to generate next step\n" }
    | some step =>
      let st := { st with result := st.result ++ "Step " ++ toString (st.stepCount + 1)
                          ++ ": " ++ QA.stringifyStep step ++ "\n" }
      if st.completedActions.contains step.action ∧ step.action = "TYPE"
          ∧ QA.isSub "search" (step.params.selector.getD "") then
        .next { st with result := st.result ++ "Step " ++ toString (st.stepCount + 1)
                         ++ ": Search already performed. Skipping.\n",
                        stepCount := st.stepCount + 1 }
      else if st.completedActions.contains step.action ∧ step.action = "CLICK"
          ∧ st.videoClicked then
        .next { st with result := st.result ++ "Step " ++ toString (st.stepCount + 1)
                         ++ ": Video already clicked. Skipping.\n",
                        stepCount := st.stepCount + 1 }
      else
        let afterSwitch : POut :=
          if e.execThrows then
            let st := { st with result := st.result ++ "Error executing step: "
                                ++ e.stepFailMsg ++ "\n" }
            if step.action = "CLICK" ∨ step.action = "TYPE" then
              match e.altSelector with
              | some alt =>
                let st := { st with result := st.result ++ "Trying alternative selector: "
                                    ++ alt ++ "\n" }
                if e.altThrows then .crash st e.altMsg
                else
                  let st := { st with
                    result := st.result ++ "Step completed successfully with alternative selector\n",
                    browserOps := st.browserOps + 1 }
                  if step.action = "CLICK" ∧ (alt = "#video-title" ∨ alt = "a[title]") then
                    .next { st with videoClicked := true }
                  else .next st
              | none => .next st
            else .next st
          else
            let st := doSwitch st step e
            .next { st with result := st.result ++ "Step completed successfully\n" }
        match afterSwitch with
        | .crash st' m => .crash st' m
        | .broke st' => .broke st'
        | .next st' =>
          let st' := { st' with
            currentState := "URL: " ++ st'.currentUrl ++ "\nLast action: " ++ step.action,
            stepCount := st'.stepCount + 1 }
          let st' := if st'.videoClicked && e.videoPlaying then
                       { st' with taskCompleted := true,
                                  result := st'.result ++ "Task completed: Video is playing.\n" }
                     else st'
          if e.completionCompleted then
            .next { st' with taskCompleted := true,
                             result := st'.result ++ "Task completed: "
                               ++ e.completionReason ++ "\n" }
          else .next st'

/-- The part_001 while loop (`maxSteps = 10`, line 82). -/
def runLoop (st : PState) : List PEnv → PState
  | [] => st
  | e :: es =>
    if st.taskCompleted ∨ 10 ≤ st.stepCount then st
    else
      match runStep st e with
      | .next st' => runLoop st' es
      | .broke st' => st'
      | .crash st' _ => st'

end P1

open QA

/-! Concrete inputs used by witnesses and counterexamples, and small
projection helpers. -/

/-- Error field of a run as the caller sees it: the outcome's `error` field, or
the propagated exception message. -/
def errOf (r : RunResult) : Option String :=
  match r.outcome with
  | .ok o => o.error
  | .error m => some m

/-- Result string of a run as the caller sees it (empty if an exception
propagated instead of a value). -/
def resultOf (r : RunResult) : String :=
  match r.outcome with
  | .ok o => o.result
  | .error _ => ""

/-- A CLICK proposal on selector `#b`. -/
def clickB : NextStep := { action := "CLICK", params := { selector := some "#b" } }

/-- A state whose `CLICK_#b` signature already has 3 recorded attempts. -/
def stCap : LoopState :=
  { initState "u" "" with actionAttempts := fun k => if k = "CLICK_#b" then 3 else 0 }

/-- An iteration environment proposing `clickB`. -/
def eCap : StepEnv := { proposal := some clickB }

/-- An uneventful WAIT iteration. -/
def eWait : StepEnv := { proposal := some { action := "WAIT" } }

/-- A state with the critical flag set. -/
def stCrit : LoopState := { initState "u" "" with criticalErrorOccurred := true }

/-- A state that has already completed a NAVIGATE, currently on `http://b`. -/
def stNav : LoopState :=
  { initState "u" "" with completedActions := ["NAVIGATE"], currentUrl := "http://b" }

/-- A NAVIGATE proposal to `http://c`. -/
def eNav : StepEnv :=
  { proposal := some { action := "NAVIGATE", params := { url := some "http://c" } },
    navUrl := "http://c" }

/-- A SUMMARIZE iteration. -/
def eSum : StepEnv := { proposal := some { action := "SUMMARIZE" }, summary := "s" }

/-- A state already marked complete. -/
def stDone : LoopState := { initState "u" "" with taskCompleted := true }

/-- A successful SCREENSHOT iteration. -/
def cexStepOk : StepEnv := { proposal := some { action := "SCREENSHOT" }, screenshotData := "img" }

/-- An iteration whose page-content extraction throws. -/
def cexStepCrash : StepEnv := { pageContentThrows := true, crashMsg := "page gone" }

/-- A run whose first step succeeds and whose second iteration crashes out of
the loop. -/
def cexRunEnvC4 : RunEnv := { gotoResult := .ok 200, steps := [cexStepOk, cexStepCrash] }

/-- A run whose initial navigation returns HTTP 304 (not ok, below 400) and
whose single step completes the task. -/
def cexRunEnvC6 : RunEnv :=
  { gotoResult := .ok 304,
    steps := [{ proposal := some { action := "SCREENSHOT" }, screenshotData := "img",
                completionCompleted := true, completionReason := "done" }] }

/-- A run whose initial navigation returns HTTP 500. -/
def envStatus500 : RunEnv := { gotoResult := .ok 500 }

/-- A run whose initial navigation returns HTTP 503, for the service variant. -/
def envStatus503 : RunEnv := { gotoResult := .ok 503 }

/-- A part_000 run that navigated once and kept the page live. -/
def p0CexEnv : P0.RunEnv :=
  { bodyFails := none, transcript := "Navigated to: http://a\n", liveUrl := "http://a" }

/-- A first NAVIGATE for the root variant (to `http://b`). -/
def rootNav1 : RootVariant.REnv :=
  { proposal := { action := "NAVIGATE", params := { url := some "http://b" } },
    navUrl := "http://b" }

/-- A second NAVIGATE for the root variant (to `http://c`). -/
def rootNav2 : RootVariant.REnv :=
  { proposal := { action := "NAVIGATE", params := { url := some "http://c" } },
    navUrl := "http://c" }

/-- A part_001 SUMMARIZE iteration. -/
def p1SumEnv : P1.PEnv := { proposal := some { action := "SUMMARIZE" }, summary := "sum" }

/-- The repetition-guard invariant: every signature's recorded attempt count is
at most 3, and the count equals the number of admitted (executed) proposals
with that signature. -/
def AttemptsOk (st : LoopState) : Prop :=
  ∀ k, st.actionAttempts k ≤ 3 ∧ st.executedKeys.count k = st.actionAttempts k

/-! Helper lemmas: the action switch and its try/catch wrapper never touch the
attempt map, the ghost execution log, the step counter, the error list, or the
critical flag — those are owned by the surrounding loop body. -/

/-- Fields of the loop state that the action switch never modifies. -/
def SwitchFrame (st st' : LoopState) : Prop :=
  st'.actionAttempts = st.actionAttempts ∧ st'.executedKeys = st.executedKeys ∧
  st'.stepCount = st.stepCount ∧ st'.errors = st.errors ∧
  st'.criticalErrorOccurred = st.criticalErrorOccurred

theorem SwitchFrame.refl (st : LoopState) : SwitchFrame st st :=
  ⟨rfl, rfl, rfl, rfl, rfl⟩

theorem navCase_frame (st : LoopState) (step : NextStep) (e : StepEnv) :
    SwitchFrame st (navCase st step e) := by
  unfold SwitchFrame navCase
  repeat' split <;> simp

theorem clickCase_frame (st : LoopState) (step : NextStep) (e : StepEnv) :
    SwitchFrame st (clickCase st step e) := by
  unfold SwitchFrame clickCase
  repeat' split <;> simp

theorem typeCase_frame (st : LoopState) (step : NextStep) :
    SwitchFrame st (typeCase st step) := by
  unfold SwitchFrame typeCase
  repeat' split <;> simp

theorem highlightCase_frame (st : LoopState) (step : NextStep) :
    SwitchFrame st (highlightCase st step) := by
  unfold SwitchFrame highlightCase
  repeat' split <;> simp

theorem selectCase_frame (st : LoopState) (step : NextStep) :
    SwitchFrame st (selectCase st step) := by
  unfold SwitchFrame selectCase
  repeat' split <;> simp

theorem doSwitch_frame (cfg : Cfg) (st : LoopState) (step : NextStep) (e : StepEnv) :
    SwitchFrame st (doSwitch cfg st step e) := by
  unfold doSwitch
  repeat' split
  case' isTrue => exact navCase_frame st step e
  all_goals first
    | exact clickCase_frame st step e
    | exact typeCase_frame st step
    | exact highlightCase_frame st step
    | exact selectCase_frame st step
    | exact ⟨rfl, rfl, rfl, rfl, rfl⟩

theorem doSwitch_attempts (cfg : Cfg) (st : LoopState) (step : NextStep) (e : StepEnv) :
    (doSwitch cfg st step e).actionAttempts = st.actionAttempts :=
  (doSwitch_frame cfg st step e).1

theorem doSwitch_executedKeys (cfg : Cfg) (st : LoopState) (step : NextStep) (e : StepEnv) :
    (doSwitch cfg st step e).executedKeys = st.executedKeys :=
  (doSwitch_frame cfg st step e).2.1

theorem doSwitch_stepCount (cfg : Cfg) (st : LoopState) (step : NextStep) (e : StepEnv) :
    (doSwitch cfg st step e).stepCount = st.stepCount :=
  (doSwitch_frame cfg st step e).2.2.1

theorem doSwitch_errors (cfg : Cfg) (st : LoopState) (step : NextStep) (e : StepEnv) :
    (doSwitch cfg st step e).errors = st.errors :=
  (doSwitch_frame cfg st step e).2.2.2.1

theorem doSwitch_critical (cfg : Cfg) (st : LoopState) (step : NextStep) (e : StepEnv) :
    (doSwitch cfg st step e).criticalErrorOccurred = st.criticalErrorOccurred :=
  (doSwitch_frame cfg st step e).2.2.2.2

theorem altRetry_frame (st : LoopState) (step : NextStep) (e : StepEnv) (alt : String) :
    SwitchFrame st (altRetry st step e alt).state := by
  unfold SwitchFrame altRetry
  split_ifs <;> simp [ExecOut.state]

theorem catchPath_frame (st : LoopState) (step : NextStep) (e : StepEnv) :
    SwitchFrame st (catchPath st step e).state := by
  unfold catchPath
  cases h : e.altSelector <;> split_ifs <;>
    first
      | exact altRetry_frame _ step e _
      | exact ⟨rfl, rfl, rfl, rfl, rfl⟩

theorem execStep_frame (cfg : Cfg) (st : LoopState) (step : NextStep) (e : StepEnv) :
    SwitchFrame st (execStep cfg st step e).state := by
  unfold execStep
  split
  · exact catchPath_frame st step e
  · exact ⟨doSwitch_attempts cfg st step e, doSwitch_executedKeys cfg st step e,
           doSwitch_stepCount cfg st step e, doSwitch_errors cfg st step e,
           doSwitch_critical cfg st step e⟩

theorem afterExec_state (cfg : Cfg) (st' : LoopState) (step : NextStep) (e : StepEnv) :
    (afterExec cfg st' step e).state.actionAttempts = st'.actionAttempts ∧
    (afterExec cfg st' step e).state.executedKeys = st'.executedKeys ∧
    (afterExec cfg st' step e).state.errors = st'.errors ∧
    (afterExec cfg st' step e).state.criticalErrorOccurred = st'.criticalErrorOccurred ∧
    (afterExec cfg st' step e).state.stepCount = st'.stepCount + 1 := by
  unfold afterExec
  split_ifs <;> simp [StepOut.state, apply_ite]

theorem afterExec_next (cfg : Cfg) (st' st'' : LoopState) (step : NextStep) (e : StepEnv)
    (h : afterExec cfg st' step e = .next st'') : st''.stepCount = st'.stepCount + 1 := by
  unfold afterExec at h
  split_ifs at h <;> cases h <;> simp [apply_ite]

theorem execDispatch_state (cfg : Cfg) (stB : LoopState) (step : NextStep) (e : StepEnv) :
    (execDispatch cfg stB step e).state.actionAttempts = stB.actionAttempts ∧
    (execDispatch cfg stB step e).state.executedKeys = stB.executedKeys ∧
    (execDispatch cfg stB step e).state.errors = stB.errors ∧
    (execDispatch cfg stB step e).state.criticalErrorOccurred = stB.criticalErrorOccurred ∧
    (execDispatch cfg stB step e).state.stepCount ≤ stB.stepCount + 1 := by
  unfold execDispatch
  split
  case h_1 st' m heq =>
    have hf := execStep_frame cfg stB step e
    rw [heq] at hf
    simp only [ExecOut.state] at hf
    obtain ⟨h1, h2, h3, h4, h5⟩ := hf
    exact ⟨h1, h2, h4, h5, by simp [StepOut.state, h3]⟩
  case h_2 st' heq =>
    have hf := execStep_frame cfg stB step e
    rw [heq] at hf
    simp only [ExecOut.state] at hf
    obtain ⟨h1, h2, h3, h4, h5⟩ := hf
    obtain ⟨a1, a2, a3, a4, a5⟩ := afterExec_state cfg st' step e
    refine ⟨by rw [a1, h1], by rw [a2, h2], by rw [a3, h4], by rw [a4, h5], ?_⟩
    rw [a5, h3]

theorem execDispatch_next (cfg : Cfg) (stB st'' : LoopState) (step : NextStep) (e : StepEnv)
    (h : execDispatch cfg stB step e = .next st'') : st''.stepCount = stB.stepCount + 1 := by
  unfold execDispatch at h
  split at h
  case h_1 => cases h
  case h_2 st' heq =>
    have hf := execStep_frame cfg stB step e
    rw [heq] at hf
    simp only [ExecOut.state] at hf
    rw [afterExec_next cfg st' st'' step e h, hf.2.2.1]



/-- Once the critical flag is set, an iteration immediately returns the
critical-error outcome without reading the environment. -/
theorem runStep_critical_halt (cfg : Cfg) (st : LoopState) (e : StepEnv)
    (h : st.criticalErrorOccurred = true) :
    runStep cfg st e = .halt
      { st with result := st.result ++ "Critical error occurred. Stopping further actions.\n" }
      "Critical error" := by
  unfold runStep
  rw [if_pos h]

/-- Exact shape of a guard-skipped iteration: transcript line, skip line, step
counter increment; everything else (beyond the handler events) untouched. -/
theorem runStep_skip (cfg : Cfg) (st : LoopState) (e : StepEnv) (step : NextStep)
    (hc : st.criticalErrorOccurred = false) (hp : e.pageContentThrows = false)
    (hprop : e.proposal = some step)
    (hg : 3 ≤ st.actionAttempts (actionKey step)) :
    runStep cfg st e = .next { st with
      errors := st.errors ++ e.newErrors,
      criticalErrorOccurred := st.criticalErrorOccurred || e.criticalRaised,
      result := st.result ++ "Step " ++ toString (st.stepCount + 1) ++ ": "
        ++ stringifyStep step ++ "\n" ++ "Skipping repeated action: "
        ++ actionKey step ++ "\n",
      stepCount := st.stepCount + 1 } := by
  unfold runStep
  simp [hc, hp, hprop, hg]

theorem initState_attemptsOk (url r0 : String) : AttemptsOk (initState url r0) :=
  fun _ => ⟨by simp [initState], by simp [initState]⟩

theorem bump_attemptsOk (st : LoopState) (key : String)
    (h : AttemptsOk st) (hg : st.actionAttempts key < 3) :
    AttemptsOk { st with
      actionAttempts := fun k => if k = key then st.actionAttempts key + 1 else st.actionAttempts k,
      executedKeys := st.executedKeys ++ [key] } := by
  intro k
  by_cases hk : k = key
  · subst hk
    refine ⟨by simp; omega, ?_⟩
    simp [List.count_append, List.count_singleton', (h k).2]
  · refine ⟨by simpa [hk] using (h k).1, ?_⟩
    simp [List.count_append, List.count_singleton', hk, (h k).2,
          show ¬ key = k from fun hkk => hk hkk.symm]

theorem execDispatch_attemptsOk (cfg : Cfg) (stB : LoopState) (step : NextStep) (e : StepEnv)
    (h : AttemptsOk stB) : AttemptsOk (execDispatch cfg stB step e).state := by
  intro k
  obtain ⟨d1, d2, _, _, _⟩ := execDispatch_state cfg stB step e
  rw [d1, d2]
  exact h k

theorem admitStep_attemptsOk (cfg : Cfg) (st : LoopState) (step : NextStep) (e : StepEnv)
    (h : AttemptsOk st) (hg : st.actionAttempts (actionKey step) < 3) :
    AttemptsOk (admitStep cfg st step e).state :=
  execDispatch_attemptsOk cfg _ step e (bump_attemptsOk st (actionKey step) h hg)

theorem runStep_attemptsOk (cfg : Cfg) (st : LoopState) (e : StepEnv)
    (h : AttemptsOk st) : AttemptsOk (runStep cfg st e).state := by
  unfold runStep
  split_ifs with h1 h2
  · exact h
  · exact h
  · cases hprop : e.proposal with
    | none => simpa [StepOut.state] using h
    | some step =>
      simp only [StepOut.state]
      split_ifs with hg
      · exact h
      · exact admitStep_attemptsOk cfg _ step e h (by simpa using hg)

theorem runLoop_attemptsOk (cfg : Cfg) (envs : List StepEnv) (st : LoopState)
    (h : AttemptsOk st) : AttemptsOk (runLoop cfg st envs).1.state := by
  induction envs generalizing st with
  | nil => exact h
  | cons e es ih =>
    rw [runLoop]
    split_ifs with hguard
    · exact h
    · have hst := runStep_attemptsOk cfg st e h
      cases hstep : runStep cfg st e with
      | next st' =>
        rw [hstep] at hst
        simp only [hstep]
        exact ih st' hst
      | halt st' err =>
        rw [hstep] at hst
        simpa only [hstep] using hst
      | broke st' =>
        rw [hstep] at hst
        simpa only [hstep] using hst
      | crash st' m =>
        rw [hstep] at hst
        simpa only [hstep] using hst

theorem admitStep_stepCount_le (cfg : Cfg) (st : LoopState) (step : NextStep) (e : StepEnv) :
    (admitStep cfg st step e).state.stepCount ≤ st.stepCount + 1 :=
  (execDispatch_state cfg
    { st with
      actionAttempts := fun k => if k = actionKey step then st.actionAttempts (actionKey step) + 1
                                 else st.actionAttempts k,
      executedKeys := st.executedKeys ++ [actionKey step] } step e).2.2.2.2

theorem runStep_stepCount_le (cfg : Cfg) (st : LoopState) (e : StepEnv) :
    (runStep cfg st e).state.stepCount ≤ st.stepCount + 1 := by
  unfold runStep
  split_ifs with h1 h2
  · simp [StepOut.state]
  · simp [StepOut.state]
  · cases hprop : e.proposal with
    | none => simp [StepOut.state]
    | some step =>
      simp only [StepOut.state]
      split_ifs with hg
      · simp
      · exact admitStep_stepCount_le cfg _ step e

theorem execDispatch_next_eq (cfg : Cfg) (stB : LoopState) (step : NextStep) (e : StepEnv) :
    match execDispatch cfg stB step e with
    | .next st' => st'.stepCount = stB.stepCount + 1
    | _ => True := by
  cases h : execDispatch cfg stB step e with
  | next st' => exact execDispatch_next cfg stB st' step e h
  | halt st' err => trivial
  | broke st' => trivial
  | crash st' m => trivial

theorem runStep_next_eq (cfg : Cfg) (st : LoopState) (e : StepEnv) :
    match runStep cfg st e with
    | .next st' => st'.stepCount = st.stepCount + 1
    | _ => True := by
  unfold runStep
  split_ifs with h1 h2
  · trivial
  · trivial
  · cases hprop : e.proposal with
    | none => trivial
    | some step =>
      dsimp only
      split_ifs with hg
      · rfl
      · exact execDispatch_next_eq cfg _ step e

theorem runStep_next_stepCount (cfg : Cfg) (st : LoopState) (e : StepEnv) (st' : LoopState)
    (h : runStep cfg st e = .next st') : st'.stepCount = st.stepCount + 1 := by
  have hx := runStep_next_eq cfg st e
  rw [h] at hx
  exact hx

theorem runLoop_stepCount_le (cfg : Cfg) (envs : List StepEnv) (st : LoopState)
    (h : st.stepCount ≤ cfg.maxSteps) :
    (runLoop cfg st envs).1.state.stepCount ≤ cfg.maxSteps := by
  induction envs generalizing st with
  | nil => exact h
  | cons e es ih =>
    rw [runLoop]
    split_ifs with hguard
    · exact h
    · have hlt : st.stepCount < cfg.maxSteps :=
        lt_of_not_ge (fun hh => hguard (Or.inr hh))
      have hle := runStep_stepCount_le cfg st e
      cases hstep : runStep cfg st e with
      | next st' =>
        simp only [hstep]
        apply ih
        rw [runStep_next_stepCount cfg st e st' hstep]
        omega
      | halt st' err =>
        rw [hstep] at hle
        simp only [hstep, StepOut.state, LoopExit.state] at hle ⊢
        omega
      | broke st' =>
        rw [hstep] at hle
        simp only [hstep, StepOut.state, LoopExit.state] at hle ⊢
        omega
      | crash st' m =>
        rw [hstep] at hle
        simp only [hstep, StepOut.state, LoopExit.state] at hle ⊢
        omega

theorem runLoop_iters_le (cfg : Cfg) (envs : List StepEnv) (st : LoopState) :
    (runLoop cfg st envs).2 ≤ cfg.maxSteps - st.stepCount := by
  induction envs generalizing st with
  | nil => simp [runLoop]
  | cons e es ih =>
    rw [runLoop]
    split_ifs with hguard
    · simp
    · have hlt : st.stepCount < cfg.maxSteps :=
        lt_of_not_ge (fun hh => hguard (Or.inr hh))
      cases hstep : runStep cfg st e with
      | next st' =>
        simp only [hstep]
        have hn := runStep_next_stepCount cfg st e st' hstep
        have := ih st'
        omega
      | halt st' err => simp only [hstep]; omega
      | broke st' => simp only [hstep]; omega
      | crash st' m => simp only [hstep]; omega

theorem runLoop_critical_frozen (cfg : Cfg) (envs : List StepEnv) (st : LoopState)
    (h : st.criticalErrorOccurred = true) :
    (runLoop cfg st envs).1.state.executedKeys = st.executedKeys ∧
    (runLoop cfg st envs).1.state.browserOps = st.browserOps ∧
    (runLoop cfg st envs).2 ≤ 1 := by
  cases envs with
  | nil => exact ⟨rfl, rfl, by simp [runLoop]⟩
  | cons e es =>
    rw [runLoop]
    split_ifs with hguard
    · exact ⟨rfl, rfl, by omega⟩
    · rw [runStep_critical_halt cfg st e h]
      exact ⟨rfl, rfl, le_refl 1⟩

theorem runLoop_critical_ret (cfg : Cfg) (st : LoopState) (e : StepEnv) (envs : List StepEnv)
    (h : st.criticalErrorOccurred = true) (ht : st.taskCompleted = false)
    (hs : st.stepCount < cfg.maxSteps) :
    (runLoop cfg st (e :: envs)).1 = .ret
      { st with result := st.result ++ "Critical error occurred. Stopping further actions.\n" }
      "Critical error" := by
  rw [runLoop]
  rw [if_neg (by simp [ht]; omega)]
  rw [runStep_critical_halt cfg st e h]

theorem runLoop_completed (cfg : Cfg) (st : LoopState) (envs : List StepEnv)
    (h : st.taskCompleted = true) : runLoop cfg st envs = (.fell st, 0) := by
  cases envs with
  | nil => rfl
  | cons e es => rw [runLoop, if_pos (Or.inl h)]

theorem runStep_sig_capped (cfg : Cfg) (st : LoopState) (e : StepEnv) (step : NextStep)
    (hprop : e.proposal = some step)
    (hg : 3 ≤ st.actionAttempts (actionKey step)) :
    (runStep cfg st e).state.executedKeys = st.executedKeys ∧
    (runStep cfg st e).state.browserOps = st.browserOps := by
  unfold runStep
  split_ifs with h1 h2
  · exact ⟨rfl, rfl⟩
  · exact ⟨rfl, rfl⟩
  · rw [hprop]
    dsimp only
    rw [if_pos hg]
    exact ⟨rfl, rfl⟩

theorem doSwitch_summarize (cfg : Cfg) (st : LoopState) (step : NextStep) (e : StepEnv)
    (ha : step.action = "SUMMARIZE") :
    (doSwitch cfg st step e).taskCompleted = true := by
  simp [doSwitch, ha]

theorem execStep_noThrow (cfg : Cfg) (st : LoopState) (step : NextStep) (e : StepEnv)
    (hx : e.execThrows = false) :
    execStep cfg st step e = .done
      { doSwitch cfg st step e with
        result := (doSwitch cfg st step e).result ++ "Step completed successfully\n" } := by
  unfold execStep
  rw [if_neg (by simp [hx])]

theorem afterExec_completed (cfg : Cfg) (st' : LoopState) (step : NextStep) (e : StepEnv)
    (h : st'.taskCompleted = true) (hp : e.postThrows = false) :
    match afterExec cfg st' step e with
    | .next st'' => st''.taskCompleted = true
    | _ => False := by
  unfold afterExec
  dsimp only
  split_ifs <;> simp_all

theorem execDispatch_summarize (cfg : Cfg) (stB : LoopState) (step : NextStep) (e : StepEnv)
    (ha : step.action = "SUMMARIZE") (hx : e.execThrows = false) (hpt : e.postThrows = false) :
    match execDispatch cfg stB step e with
    | .next st' => st'.taskCompleted = true
    | _ => False := by
  unfold execDispatch
  rw [execStep_noThrow cfg stB step e hx]
  dsimp only
  exact afterExec_completed cfg _ step e (doSwitch_summarize cfg stB step e ha) hpt

theorem runStep_summarize (cfg : Cfg) (st : LoopState) (e : StepEnv) (step : NextStep)
    (hc : st.criticalErrorOccurred = false) (hpc : e.pageContentThrows = false)
    (hprop : e.proposal = some step) (ha : step.action = "SUMMARIZE")
    (hg : st.actionAttempts (actionKey step) < 3)
    (hx : e.execThrows = false) (hpt : e.postThrows = false) :
    match runStep cfg st e with
    | .next st' => st'.taskCompleted = true
    | _ => False := by
  unfold runStep
  rw [if_neg (show ¬ st.criticalErrorOccurred = true by simp [hc])]
  dsimp only
  rw [if_neg (show ¬ e.pageContentThrows = true by simp [hpc]), hprop]
  dsimp only
  rw [if_neg (not_le.mpr hg)]
  unfold admitStep
  dsimp only
  exact execDispatch_summarize cfg _ step e ha hx hpt

theorem finishRun_ok (st : LoopState) (env : RunEnv) :
    ∃ o, (finishRun st env).outcome = .ok o ∧ (finishRun st env).closes = 1 := by
  unfold finishRun
  split_ifs <;> exact ⟨_, rfl, rfl⟩

theorem runFromLoop_ok (cfg : Cfg) (st0 : LoopState) (env : RunEnv) :
    ∃ o, (runFromLoop cfg st0 env).outcome = .ok o ∧ (runFromLoop cfg st0 env).closes = 1 := by
  unfold runFromLoop
  cases h : runLoop cfg st0 env.steps with
  | mk ex n =>
    cases ex with
    | ret st err => exact ⟨_, rfl, rfl⟩
    | crashed st msg => exact ⟨_, rfl, rfl⟩
    | fell st => exact finishRun_ok st env

theorem navPhase_ok (cfg : Cfg) (url : String) (env : RunEnv) :
    ∃ o, (navPhase cfg url env).outcome = .ok o ∧ (navPhase cfg url env).closes = 1 := by
  unfold navPhase
  cases env.gotoResult with
  | crash msg => exact ⟨_, rfl, rfl⟩
  | timeout => split_ifs <;> exact ⟨_, rfl, rfl⟩
  | ok status =>
    dsimp only
    split_ifs <;> first
      | exact ⟨_, rfl, rfl⟩
      | exact runFromLoop_ok cfg _ env

theorem navCase_noop (st : LoopState) (step : NextStep) (e : StepEnv)
    (hdone : st.completedActions.contains "NAVIGATE" = true) :
    navCase st step e = st := by
  unfold navCase
  cases h : truthy step.params.url with
  | some u => dsimp only; rw [if_pos hdone]
  | none => rfl

theorem doSwitch_nav_noop (cfg : Cfg) (st : LoopState) (step : NextStep) (e : StepEnv)
    (ha : step.action = "NAVIGATE")
    (hdone : st.completedActions.contains "NAVIGATE" = true) :
    doSwitch cfg st step e = st := by
  unfold doSwitch
  rw [if_pos ha]
  exact navCase_noop st step e hdone

theorem catchPath_nav (st : LoopState) (step : NextStep) (e : StepEnv)
    (ha : step.action = "NAVIGATE") :
    catchPath st step e = .done
      { st with result := st.result ++ "Error executing step: " ++ e.stepFailMsg ++ "\n" } := by
  unfold catchPath
  dsimp only
  rw [if_neg (by simp [ha])]

theorem afterExec_more (cfg : Cfg) (st' : LoopState) (step : NextStep) (e : StepEnv) :
    (afterExec cfg st' step e).state.currentUrl = st'.currentUrl ∧
    (afterExec cfg st' step e).state.completedActions = st'.completedActions ∧
    (afterExec cfg st' step e).state.browserOps = st'.browserOps ∧
    (afterExec cfg st' step e).state.screenshots = st'.screenshots := by
  unfold afterExec
  dsimp only
  split_ifs <;> simp [StepOut.state, apply_ite]

theorem execDispatch_nav (cfg : Cfg) (stB : LoopState) (step : NextStep) (e : StepEnv)
    (ha : step.action = "NAVIGATE")
    (hdone : stB.completedActions.contains "NAVIGATE" = true) :
    (execDispatch cfg stB step e).state.currentUrl = stB.currentUrl ∧
    (execDispatch cfg stB step e).state.completedActions = stB.completedActions ∧
    (execDispatch cfg stB step e).state.browserOps = stB.browserOps := by
  unfold execDispatch
  by_cases hx : e.execThrows = true
  · unfold execStep
    rw [if_pos hx, catchPath_nav stB step e ha]
    dsimp only
    exact ⟨(afterExec_more cfg _ step e).1, (afterExec_more cfg _ step e).2.1,
           (afterExec_more cfg _ step e).2.2.1⟩
  · rw [execStep_noThrow cfg stB step e (by simpa using hx)]
    dsimp only
    rw [doSwitch_nav_noop cfg stB step e ha hdone]
    exact ⟨(afterExec_more cfg _ step e).1, (afterExec_more cfg _ step e).2.1,
           (afterExec_more cfg _ step e).2.2.1⟩

theorem runStep_nav_idempotent (cfg : Cfg) (st : LoopState) (e : StepEnv) (step : NextStep)
    (hprop : e.proposal = some step) (ha : step.action = "NAVIGATE")
    (hdone : st.completedActions.contains "NAVIGATE" = true) :
    (runStep cfg st e).state.currentUrl = st.currentUrl ∧
    (runStep cfg st e).state.completedActions = st.completedActions ∧
    (runStep cfg st e).state.browserOps = st.browserOps := by
  unfold runStep
  split_ifs with h1 h2
  · exact ⟨rfl, rfl, rfl⟩
  · exact ⟨rfl, rfl, rfl⟩
  · rw [hprop]
    dsimp only
    split_ifs with hg
    · exact ⟨rfl, rfl, rfl⟩
    · unfold admitStep
      dsimp only
      exact execDispatch_nav cfg _ step e ha hdone

/-- Claim C1: in every run, each action signature's recorded attempt count
never exceeds 3 — and equals the number of admitted proposals with that
signature, so the 4th identical proposal is never executed — and a proposal
whose signature already has 3 recorded attempts leaves the execution log and
the browser untouched (it is skipped without invoking the action switch). -/
theorem c1_repetition_cap :
    (∀ cfg url r0 envs k,
        (runLoop cfg (initState url r0) envs).1.state.actionAttempts k ≤ 3 ∧
        (runLoop cfg (initState url r0) envs).1.state.executedKeys.count k ≤ 3) ∧
    (∀ cfg st e step, e.proposal = some step →
        3 ≤ st.actionAttempts (actionKey step) →
        (runStep cfg st e).state.executedKeys = st.executedKeys ∧
        (runStep cfg st e).state.browserOps = st.browserOps) := by
  constructor
  · intro cfg url r0 envs k
    have h := runLoop_attemptsOk cfg envs (initState url r0) (initState_attemptsOk url r0)
    exact ⟨(h k).1, by rw [(h k).2]; exact (h k).1⟩
  · exact fun cfg st e step hp hg => runStep_sig_capped cfg st e step hp hg

/-- Witness for C1 at a concrete capped signature. -/
theorem c1_repetition_cap_witness :
    (runStep routerCfg stCap eCap).state.executedKeys = stCap.executedKeys ∧
    (runStep routerCfg stCap eCap).state.browserOps = stCap.browserOps :=
  c1_repetition_cap.2 routerCfg stCap eCap clickB rfl (by decide)

/-- Claim C2: the step counter starts at 0, every continuing loop iteration
increments it by exactly 1, it never exceeds the configured step budget
`maxSteps`, and the loop enters at most `maxSteps` iterations. -/
theorem c2_step_budget :
    (∀ url r0, (initState url r0).stepCount = 0) ∧
    (∀ cfg st e st', runStep cfg st e = .next st' → st'.stepCount = st.stepCount + 1) ∧
    (∀ cfg url r0 envs,
        (runLoop cfg (initState url r0) envs).1.state.stepCount ≤ cfg.maxSteps ∧
        (runLoop cfg (initState url r0) envs).2 ≤ cfg.maxSteps) := by
  refine ⟨fun url r0 => rfl,
          fun cfg st e st' h => runStep_next_stepCount cfg st e st' h,
          fun cfg url r0 envs => ⟨runLoop_stepCount_le cfg envs _ (Nat.zero_le _), ?_⟩⟩
  have h := runLoop_iters_le cfg envs (initState url r0)
  omega

/-- Witness for C2 at a concrete continuing iteration. -/
theorem c2_step_budget_witness :
    (runStep routerCfg (initState "u" "") eWait).state.stepCount
      = (initState "u" "").stepCount + 1 :=
  c2_step_budget.2.1 routerCfg (initState "u" "") eWait _ rfl

/-- Claim C8: once the critical flag is set, the next iteration returns the
"Critical error" outcome without touching the environment, and no further
proposal is ever admitted in the rest of the run (execution log and browser
operation count stay frozen, and at most one further iteration is entered). -/
theorem c8_critical_monotone :
    (∀ cfg st e, st.criticalErrorOccurred = true →
        runStep cfg st e = .halt
          { st with result := st.result
              ++ "Critical error occurred. Stopping further actions.\n" }
          "Critical error") ∧
    (∀ cfg st envs, st.criticalErrorOccurred = true →
        (runLoop cfg st envs).1.state.executedKeys = st.executedKeys ∧
        (runLoop cfg st envs).1.state.browserOps = st.browserOps ∧
        (runLoop cfg st envs).2 ≤ 1) ∧
    (∀ cfg st e envs, st.criticalErrorOccurred = true → st.taskCompleted = false →
        st.stepCount < cfg.maxSteps →
        (runLoop cfg st (e :: envs)).1 = .ret
          { st with result := st.result
              ++ "Critical error occurred. Stopping further actions.\n" }
          "Critical error") :=
  ⟨fun cfg st e h => runStep_critical_halt cfg st e h,
   fun cfg st envs h => runLoop_critical_frozen cfg envs st h,
   fun cfg st e envs h ht hs => runLoop_critical_ret cfg st e envs h ht hs⟩

/-- Witness for C8 at a concrete critical state. -/
theorem c8_critical_monotone_witness :
    (runLoop routerCfg stCrit [eWait]).1 = .ret
      { stCrit with result := stCrit.result
          ++ "Critical error occurred. Stopping further actions.\n" }
      "Critical error" :=
  c8_critical_monotone.2.2 routerCfg stCrit eWait [] rfl rfl (by decide)

/-- Claim C10: a proposal skipped by the repetition guard still increments the
step counter by 1, while completed actions, screenshots, the whole attempt map
(in particular every other signature's count), the current URL, the browser
operation count, the completion flag and the video flag are all unchanged by
the skip. -/
theorem c10_skip_frame :
    ∀ cfg st e step, st.criticalErrorOccurred = false → e.pageContentThrows = false →
      e.proposal = some step → 3 ≤ st.actionAttempts (actionKey step) →
      runStep cfg st e = .next { st with
        errors := st.errors ++ e.newErrors,
        criticalErrorOccurred := st.criticalErrorOccurred || e.criticalRaised,
        result := st.result ++ "Step " ++ toString (st.stepCount + 1) ++ ": "
          ++ stringifyStep step ++ "\n" ++ "Skipping repeated action: "
          ++ actionKey step ++ "\n",
        stepCount := st.stepCount + 1 } ∧
      (runStep cfg st e).state.completedActions = st.completedActions ∧
      (runStep cfg st e).state.screenshots = st.screenshots ∧
      (runStep cfg st e).state.actionAttempts = st.actionAttempts ∧
      (runStep cfg st e).state.currentUrl = st.currentUrl ∧
      (runStep cfg st e).state.browserOps = st.browserOps ∧
      (runStep cfg st e).state.taskCompleted = st.taskCompleted ∧
      (runStep cfg st e).state.videoClicked = st.videoClicked ∧
      (runStep cfg st e).state.stepCount = st.stepCount + 1 := by
  intro cfg st e step hc hp hprop hg
  have h := runStep_skip cfg st e step hc hp hprop hg
  rw [h]
  exact ⟨rfl, rfl, rfl, rfl, rfl, rfl, rfl, rfl, rfl⟩

/-- Witness for C10 at a concrete capped signature. -/
theorem c10_skip_frame_witness :
    (runStep routerCfg stCap eCap).state.completedActions = stCap.completedActions ∧
    (runStep routerCfg stCap eCap).state.actionAttempts = stCap.actionAttempts ∧
    (runStep routerCfg stCap eCap).state.stepCount = stCap.stepCount + 1 :=
  ⟨(c10_skip_frame routerCfg stCap eCap clickB rfl rfl rfl (by decide)).2.1,
   (c10_skip_frame routerCfg stCap eCap clickB rfl rfl rfl (by decide)).2.2.2.1,
   (c10_skip_frame routerCfg stCap eCap clickB rfl rfl rfl (by decide)).2.2.2.2.2.2.2.2⟩

/-- Claim C3 (counterexample): the part_000 next-step generator does not return
a safe default on a malformed reply — it throws
(`src/unnamed/part_000` lines 230-235). -/
theorem c3_part000_raises_cex :
    P0.generateNextStep (fun _ => none) none "hello world"
      = .error "Failed to get a valid JSON response. Please try again." := rfl

/-- Claim C3 (amended): the qa_analysis.ts generator returns the default
SUMMARIZE proposal on a missing reply and on any reply that neither parses nor
yields a parseable object substring; the part_000 variant instead throws. -/
theorem c3_default_proposal_amended :
    (∀ parse content, parse content = none →
        (∀ sub, extractObject content = some sub → parse sub = none) →
        generateNextStep parse (some content) = defaultStep) ∧
    (∀ parse : String → Option NextStep, generateNextStep parse none = defaultStep) ∧
    defaultStep.action = "SUMMARIZE" ∧
    (∀ parse reply, parse reply = none →
        P0.generateNextStep parse none reply
          = .error "Failed to get a valid JSON response. Please try again.") := by
  refine ⟨?_, fun parse => rfl, rfl, ?_⟩
  · intro parse content h1 h2
    unfold generateNextStep
    dsimp only
    rw [h1]
    cases hex : extractObject content with
    | none => rfl
    | some sub =>
      dsimp only
      rw [h2 sub hex]
  · intro parse reply h
    unfold P0.generateNextStep
    dsimp only
    rw [h]

/-- Witness for the amended C3 on a concrete unparseable reply. -/
theorem c3_default_proposal_amended_witness :
    generateNextStep (fun _ => none) (some "hello world") = defaultStep :=
  c3_default_proposal_amended.1 (fun _ => none) "hello world" rfl (fun _ _ => rfl)

/-- Claim C4 (counterexample): a run that accumulated "Step 1: ..." in its
transcript and then hit an exception escaping the loop returns the fixed
placeholder string plus the error — the partial transcript is discarded, not
returned. -/
theorem c4_transcript_discarded_cex :
    (runQualityAnalysis routerCfg "http://a" cexRunEnvC4).outcome
      = .ok ⟨"An error occurred during the analysis", [], some "page gone"⟩ ∧
    isSub "Step 1:" (runQualityAnalysis routerCfg "http://a" cexRunEnvC4).loopTranscript
      = true ∧
    isSub "Step 1:" (resultOf (runQualityAnalysis routerCfg "http://a" cexRunEnvC4))
      = false := ⟨rfl, rfl, rfl⟩

/-- Claim C4 (amended): provided browser setup succeeds (the service variant
needs no proviso, since it launches inside the try), the entry point never
lets an exception propagate: every run returns a structured outcome, and a
failure escaping the loop yields the fixed placeholder result plus the error
message — the transcript survives only as the ghost `loopTranscript`. -/
theorem c4_structured_outcome_amended :
    (∀ cfg url env, cfg.setupInsideTry = true →
        ∃ o, (runQualityAnalysis cfg url env).outcome = .ok o) ∧
    (∀ cfg url env, env.launchThrows = false → env.newPageThrows = false →
        ∃ o, (runQualityAnalysis cfg url env).outcome = .ok o) ∧
    (∀ cfg st0 env st msg n, runLoop cfg st0 env.steps = (.crashed st msg, n) →
        (runFromLoop cfg st0 env).outcome = .ok (catchOutcome msg) ∧
        (runFromLoop cfg st0 env).loopTranscript = st.result) := by
  refine ⟨?_, ?_, ?_⟩
  · intro cfg url env h
    unfold runQualityAnalysis
    split_ifs <;> first
      | exact ⟨_, rfl⟩
      | (obtain ⟨o, h1, _⟩ := navPhase_ok cfg url env; exact ⟨o, h1⟩)
  · intro cfg url env h1 h2
    unfold runQualityAnalysis
    rw [if_neg (by simp [h1]), if_neg (by simp [h2])]
    obtain ⟨o, ho, _⟩ := navPhase_ok cfg url env
    exact ⟨o, ho⟩
  · intro cfg st0 env st msg n h
    unfold runFromLoop
    rw [h]
    exact ⟨rfl, rfl⟩

/-- Witness for the amended C4 on a concrete service-variant run. -/
theorem c4_structured_outcome_amended_witness :
    ∃ o, (runQualityAnalysis serviceCfg "u" envStatus503).outcome = .ok o :=
  c4_structured_outcome_amended.1 serviceCfg "u" envStatus503 rfl

/-- Claim C5 (counterexample): part_000's `executeWebTask` returns its outcome
with the browser never closed — zero `browser.close()` calls on a successful
run (the close in its finally block is commented out, line 198). -/
theorem c5_part000_no_close_cex :
    (P0.executeWebTask p0CexEnv).closes = 0 ∧
    P0.executeWebTask p0CexEnv = ⟨"Navigated to: http://a\n", "http://a", 0⟩ :=
  ⟨rfl, rfl⟩

/-- Claim C5 (amended): in the service variant the browser is closed exactly
once whenever launch succeeded; in the router variant whenever launch and
newPage succeeded; part_000's `executeWebTask` never closes it. -/
theorem c5_close_once_amended :
    (∀ cfg url env, env.launchThrows = false → cfg.setupInsideTry = true →
        (runQualityAnalysis cfg url env).closes = 1) ∧
    (∀ cfg url env, env.launchThrows = false → env.newPageThrows = false →
        (runQualityAnalysis cfg url env).closes = 1) ∧
    (∀ env, (P0.executeWebTask env).closes = 0) := by
  refine ⟨?_, ?_, ?_⟩
  · intro cfg url env h1 h2
    unfold runQualityAnalysis
    rw [if_neg (by simp [h1])]
    split_ifs <;> first
      | rfl
      | (obtain ⟨o, _, hc⟩ := navPhase_ok cfg url env; exact hc)
  · intro cfg url env h1 h2
    unfold runQualityAnalysis
    rw [if_neg (by simp [h1]), if_neg (by simp [h2])]
    obtain ⟨o, _, hc⟩ := navPhase_ok cfg url env
    exact hc
  · intro env
    unfold P0.executeWebTask
    cases env.bodyFails <;> rfl

/-- Witness for the amended C5 on a concrete router run. -/
theorem c5_close_once_amended_witness :
    (runQualityAnalysis routerCfg "u" envStatus500).closes = 1 :=
  c5_close_once_amended.2.1 routerCfg "u" envStatus500 rfl rfl

/-- Claim C6 (counterexample): a router run whose initial navigation returned
HTTP 304 — a non-success response — does not terminate immediately: its single
step executes (stepsExecuted = 1), the outcome carries no error, and the
transcript shows both the logged status line and the executed step. -/
theorem c6_nonok_continues_cex :
    (runQualityAnalysis routerCfg "u" cexRunEnvC6).stepsExecuted = 1 ∧
    errOf (runQualityAnalysis routerCfg "u" cexRunEnvC6) = none ∧
    isSub "Critical error: HTTP status 304"
      (resultOf (runQualityAnalysis routerCfg "u" cexRunEnvC6)) = true ∧
    isSub "Step 1:" (resultOf (runQualityAnalysis routerCfg "u" cexRunEnvC6)) = true :=
  ⟨rfl, rfl, rfl, rfl⟩

/-- Claim C6 (amended): in the router variant a run terminates immediately with
error "HTTP status c", no screenshots and zero steps exactly when the initial
status is at least 400 (a non-ok status below 400 only logs the critical line
and the loop proceeds); in the service variant every non-ok status terminates
immediately that way. -/
theorem c6_http_error_amended :
    (∀ url env c, env.launchThrows = false → env.newPageThrows = false →
        env.gotoResult = .ok c → 400 ≤ c →
        runQualityAnalysis routerCfg url env =
          ⟨.ok ⟨"Critical error: HTTP status " ++ toString c ++ "\n", [],
                some ("HTTP status " ++ toString c)⟩, 1,
           "Critical error: HTTP status " ++ toString c ++ "\n", 0⟩) ∧
    (∀ url env c, env.launchThrows = false → env.newPageThrows = false →
        env.gotoResult = .ok c → ¬ (200 ≤ c ∧ c ≤ 299) →
        runQualityAnalysis serviceCfg url env =
          ⟨.ok ⟨"Critical error: HTTP status " ++ toString c, [],
                some ("HTTP status " ++ toString c)⟩, 1, "", 0⟩) := by
  constructor
  · intro url env c h1 h2 hg hc
    have hno : ¬ (200 ≤ c ∧ c ≤ 299) := by omega
    unfold runQualityAnalysis
    rw [if_neg (by simp [h1]), if_neg (by simp [h2])]
    unfold navPhase
    rw [hg]
    dsimp only [routerCfg]
    rw [if_neg (by simp), if_neg hno, if_pos ⟨hno, hc⟩]
  · intro url env c h1 h2 hg hno
    unfold runQualityAnalysis
    rw [if_neg (by simp [h1]), if_neg (by simp [h2])]
    unfold navPhase
    rw [hg]
    dsimp only [serviceCfg]
    rw [if_pos rfl, if_pos hno]

/-- Witness for the amended C6 at status 500. -/
theorem c6_http_error_amended_witness :
    runQualityAnalysis routerCfg "u" envStatus500 =
      ⟨.ok ⟨"Critical error: HTTP status 500\n", [], some "HTTP status 500"⟩, 1,
       "Critical error: HTTP status 500\n", 0⟩ :=
  c6_http_error_amended.1 "u" envStatus500 500 rfl rfl rfl (by norm_num)

/-- Claim C7 (counterexample): in the root.ts variant, after a first NAVIGATE
completed (completedActions = [NAVIGATE], page on http://b), a second NAVIGATE
proposal navigates again: the current URL changes to http://c and a second
browser navigation is performed. -/
theorem c7_root_renavigates_cex :
    (RootVariant.runLoop (RootVariant.initState "http://a") [rootNav1]).completedActions
      = ["NAVIGATE"] ∧
    (RootVariant.runLoop (RootVariant.initState "http://a") [rootNav1]).currentUrl
      = "http://b" ∧
    (RootVariant.runLoop (RootVariant.initState "http://a") [rootNav1, rootNav2]).currentUrl
      = "http://c" ∧
    (RootVariant.runLoop (RootVariant.initState "http://a") [rootNav1, rootNav2]).browserOps
      = 2 := ⟨rfl, rfl, rfl, rfl⟩

/-- Claim C7 (amended): in the qa_analysis.ts / qualityAnalysis.ts variants,
once NAVIGATE is recorded as completed, a subsequent NAVIGATE proposal (any
URL, any environment) leaves the current URL, the completed actions and the
browser operation count unchanged; the root.ts variant has no such guard. -/
theorem c7_navigate_idempotent_amended :
    ∀ cfg st e step, e.proposal = some step → step.action = "NAVIGATE" →
      st.completedActions.contains "NAVIGATE" = true →
      (runStep cfg st e).state.currentUrl = st.currentUrl ∧
      (runStep cfg st e).state.completedActions = st.completedActions ∧
      (runStep cfg st e).state.browserOps = st.browserOps :=
  fun cfg st e step hp ha hd => runStep_nav_idempotent cfg st e step hp ha hd

/-- Witness for the amended C7 at a concrete repeated NAVIGATE. -/
theorem c7_navigate_idempotent_amended_witness :
    (runStep routerCfg stNav eNav).state.currentUrl = stNav.currentUrl ∧
    (runStep routerCfg stNav eNav).state.completedActions = stNav.completedActions ∧
    (runStep routerCfg stNav eNav).state.browserOps = stNav.browserOps :=
  c7_navigate_idempotent_amended routerCfg stNav eNav _ rfl rfl rfl

/-- Claim C9 (counterexample): in the part_001 variant a SUMMARIZE action
executes (the summary is appended and SUMMARIZE recorded) yet the run is not
marked complete — its SUMMARIZE case never sets the completion flag
(src/unnamed/part_001 lines 150-154). -/
theorem c9_part001_summarize_cex :
    (P1.runLoop (P1.initState "u") [p1SumEnv]).taskCompleted = false ∧
    (P1.runLoop (P1.initState "u") [p1SumEnv]).completedActions = ["SUMMARIZE"] ∧
    isSub "Summary: sum" (P1.runLoop (P1.initState "u") [p1SumEnv]).result = true :=
  ⟨rfl, rfl, rfl⟩

/-- Claim C9 (amended): in the qa_analysis.ts / qualityAnalysis.ts variants, a
SUMMARIZE proposal admitted by the guard whose execution does not throw sets
the task-completed flag, and a completed state makes the loop exit before its
next iteration; in the part_001 variant SUMMARIZE signals nothing, and a
SUMMARIZE whose execution throws does not complete either. -/
theorem c9_summarize_completes_amended :
    (∀ cfg st e step, st.criticalErrorOccurred = false → e.pageContentThrows = false →
        e.proposal = some step → step.action = "SUMMARIZE" →
        st.actionAttempts (actionKey step) < 3 →
        e.execThrows = false → e.postThrows = false →
        match runStep cfg st e with
        | .next st' => st'.taskCompleted = true
        | _ => False) ∧
    (∀ cfg st envs, st.taskCompleted = true → runLoop cfg st envs = (.fell st, 0)) :=
  ⟨fun cfg st e step hc hpc hp ha hg hx hpt =>
     runStep_summarize cfg st e step hc hpc hp ha hg hx hpt,
   fun cfg st envs h => runLoop_completed cfg st envs h⟩

/-- Witness for the amended C9 at a concrete SUMMARIZE iteration. -/
theorem c9_summarize_completes_amended_witness :
    (match runStep routerCfg (initState "u" "") eSum with
     | .next st' => st'.taskCompleted = true
     | _ => False) ∧
    runLoop routerCfg stDone [eSum] = (.fell stDone, 0) :=
  ⟨c9_summarize_completes_amended.1 routerCfg (initState "u" "") eSum _ rfl rfl rfl rfl
     (by decide) rfl rfl,
   c9_summarize_completes_amended.2 routerCfg stDone [eSum] rfl⟩
